import Mathlib

/-!
Verification development for the `qna-with-haystack-demo` repository.

The repository consists of two Jupyter notebooks, `QnA_Mahabharata_Dense.ipynb`
and `QnA_Mahabharata_Sparse.ipynb`, which sequence calls into an external QA
framework (document stores, retrievers, readers, pipelines).  The notebooks are
embedded here cell by cell as explicit state passing over a file-system model;
the framework operations they call are not part of the repository, so those are
modelled from the specification's description of them, and each such definition
says so in its doc comment.  Pretrained-model behaviour (sentence embeddings,
extractive reading, BM25 scoring) is opaque, so it is kept as a parameter that
theorems quantify over.
-/

/-! ### Data model -/

/-- A Document: a chunk of source text plus metadata (its origin file, the
`name` meta field set by the converters) and an optional embedding vector,
following the spec's data model section. -/
structure DocumentT where
  id : Nat
  content : String
  origin : String
  embedding : Option (List Int)
deriving DecidableEq

/-- Contents of one on-disk file: a plain-text corpus file, a relational
database holding written documents, a serialized vector index, or the JSON
config written next to a saved index. -/
inductive FileData where
  | text (s : String)
  | sqliteDb (docs : List DocumentT)
  | faissIndex (entries : List (Nat × List Int))
  | faissConfig (factory : String) (sqlUrl : String) (returnEmbedding : Bool)
deriving DecidableEq

/-- The file system: an association list from path to file data; later entries
shadow earlier ones. -/
abbrev Disk := List (String × FileData)

def Disk.lookup : Disk → String → Option FileData
  | [], _ => none
  | (q, f) :: rest, p => if p = q then some f else Disk.lookup rest p

def Disk.writeFile (d : Disk) (p : String) (f : FileData) : Disk :=
  (p, f) :: d

/-- Errors raised by the external framework: missing files and the notebook's
own `assert` statement. -/
inductive Err where
  | fileNotFound (p : String)
  | assertionError
deriving DecidableEq

instance {ε α : Type} [DecidableEq ε] [DecidableEq α] :
    DecidableEq (Except ε α) := fun a b =>
  match a, b with
  | Except.ok x, Except.ok y =>
    if h : x = y then isTrue (by rw [h]) else isFalse (by simp [h])
  | Except.ok _, Except.error _ => isFalse (by simp)
  | Except.error _, Except.ok _ => isFalse (by simp)
  | Except.error e, Except.error f =>
    if h : e = f then isTrue (by rw [h]) else isFalse (by simp [h])

/-! ### Text pre-processing

`PreProcessor` and the converters are framework components; the notebooks only
configure them.  Modelled from the spec: "Load raw text files, pre-process them
into chunks with size/overlap parameters, and write them into the document
store."  Cleaning functions (`clean_wiki_text`, whitespace cleaning) are
library-internal text normalisation and are modelled as the identity. -/

/-- A raw document as produced by file conversion, before splitting: the file's
text and the file path recorded as the document's `name` metadata. -/
structure RawDoc where
  content : String
  origin : String
deriving DecidableEq

/-- Split a character list at spaces (the accumulator holds the current word
reversed); structurally recursive version of splitting on `" "`. -/
def splitAtSpaces (cur : List Char) : List Char → List (List Char)
  | [] => [cur.reverse]
  | c :: cs =>
    if c = ' ' then cur.reverse :: splitAtSpaces [] cs
    else splitAtSpaces (c :: cur) cs

def wordsOf (s : String) : List String :=
  (splitAtSpaces [] s.data).map String.mk

def joinWords : List String → String
  | [] => ""
  | [w] => w
  | w :: ws => w ++ " " ++ joinWords ws

def strStartsWith (s pre : String) : Bool := pre.data.isPrefixOf s.data

/-- Split a word list into chunks of at most `L` words where consecutive chunks
share `O` words; fuel-driven so it evaluates.  Modelled from the spec: chunking
"governed by explicit size and overlap parameters". -/
def chunkWordsAux (L O : Nat) : Nat → List String → List (List String)
  | 0, ws => [ws]
  | fuel + 1, ws =>
    if ws.length ≤ L ∨ L ≤ O then [ws]
    else ws.take L :: chunkWordsAux L O fuel (ws.drop (L - O))

def chunkWords (L O : Nat) (ws : List String) : List (List String) :=
  chunkWordsAux L O ws.length ws

/-- The `PreProcessor` configuration record, with the keyword parameters the
notebooks pass to it. -/
structure PreProcessor where
  clean_empty_lines : Bool
  clean_whitespace : Bool
  clean_header_footer : Bool
  split_by : String
  split_length : Nat
  split_overlap : Nat
  split_respect_sentence_boundary : Bool
deriving DecidableEq

/-- `PreProcessor.process`: split each raw document's text into word chunks of
`split_length` words with `split_overlap` overlap, keeping the origin metadata
and numbering the resulting Documents.  Modelled from the spec: Documents are
"created during text pre-processing/splitting". -/
def PreProcessor.process (pp : PreProcessor) (raws : List RawDoc) : List DocumentT :=
  (raws.flatMap fun r =>
    (chunkWords pp.split_length pp.split_overlap (wordsOf r.content)).map fun ws =>
      (joinWords ws, r.origin)).enum.map fun ic =>
    { id := ic.1, content := ic.2.1, origin := ic.2.2, embedding := none }

/-- Whether disk path `p` is a plain-text file inside directory `dir`. -/
def isTextFileIn (dir : String) (disk : Disk) (p : String) : Bool :=
  strStartsWith p (dir ++ "/") &&
    match disk.lookup p with
    | some (FileData.text _) => true
    | _ => false

/-- The raw documents obtained from the plain-text files under `dir_path`. -/
def convertedRaws (dir_path : String) (disk : Disk) : List RawDoc :=
  disk.reverse.filterMap fun e =>
    match e with
    | (p, FileData.text s) =>
      if strStartsWith p (dir_path ++ "/") ∧ disk.lookup p = some (FileData.text s)
      then some { content := s, origin := p }
      else none
    | _ => none

/-- `convert_files_to_docs`: read every plain-text file under `dir_path` into a
raw document carrying the file path as its name.  Fails when the directory
yields no files.  Modelled from the spec: "Input: a directory of plain-text
files representing the corpus"; failures "surface as unhandled exceptions". -/
def convert_files_to_docs (dir_path : String) (disk : Disk) :
    Except Err (List RawDoc) :=
  if (convertedRaws dir_path disk).isEmpty
  then Except.error (Err.fileNotFound dir_path)
  else Except.ok (convertedRaws dir_path disk)

/-! ### Document stores

Modelled from the spec: "Document Store: a persistence layer (file-backed
relational store + vector index, or in-memory structure) holding the collection
of Documents and, for dense retrieval, a vector index mapping Document identity
to embedding." -/

/-- Strip the `sqlite:///` scheme from a SQLAlchemy URL to obtain the database
file path. -/
def sqlUrlPath (u : String) : String := String.mk (u.data.drop 10)

structure FAISSDocumentStore where
  sql_url : String
  faiss_index_factory_str : String
  return_embedding : Bool
  docs : List DocumentT
  index : List (Nat × List Int)
deriving DecidableEq

/-- Constructing a `FAISSDocumentStore` creates (or resets) the backing
relational database file named by `sql_url`.  Modelled from the spec:
"Construct a document store (backed by an embedded relational file ...)". -/
def FAISSDocumentStore.init (sqlUrl factory : String) (retEmb : Bool)
    (disk : Disk) : FAISSDocumentStore × Disk :=
  ({ sql_url := sqlUrl, faiss_index_factory_str := factory,
     return_embedding := retEmb, docs := [], index := [] },
   disk.writeFile (sqlUrlPath sqlUrl) (FileData.sqliteDb []))

/-- `write_documents`: append the documents to the store and persist the
collection into the backing database file.  Modelled from the spec: Documents
are "written once to the store". -/
def FAISSDocumentStore.write_documents (s : FAISSDocumentStore)
    (ds : List DocumentT) (disk : Disk) : FAISSDocumentStore × Disk :=
  let s' := { s with docs := s.docs ++ ds }
  (s', disk.writeFile (sqlUrlPath s.sql_url) (FileData.sqliteDb s'.docs))

/-- `update_embeddings`: iterate over all previously indexed documents,
annotate each with the embedding the retriever's model computes from its
content, and record it in the vector index.  Modelled from the spec: Documents
are "later annotated with an embedding vector during an update pass". -/
def FAISSDocumentStore.update_embeddings (s : FAISSDocumentStore)
    (embed : String → List Int) (disk : Disk) : FAISSDocumentStore × Disk :=
  let ds := s.docs.map fun d => { d with embedding := some (embed d.content) }
  let s' := { s with docs := ds, index := ds.map fun d => (d.id, (embed d.content)) }
  (s', disk.writeFile (sqlUrlPath s.sql_url) (FileData.sqliteDb s'.docs))

/-- `save`: serialize the vector index to `path` and the store configuration to
`path ++ ".json"`.  Modelled from the spec: "Persisted state: a relational
database file and a serialized vector index (dense notebook only)". -/
def FAISSDocumentStore.save (s : FAISSDocumentStore) (path : String)
    (disk : Disk) : Disk :=
  (disk.writeFile path (FileData.faissIndex s.index)).writeFile (path ++ ".json")
    (FileData.faissConfig s.faiss_index_factory_str s.sql_url s.return_embedding)

/-- `FAISSDocumentStore.load`: read the config file, the index file and the
database file the config points at, and reconstruct the store; a missing or
ill-typed file raises.  Modelled from the spec: the dense notebook can "re-run
with an existing document store" from the persisted files. -/
def FAISSDocumentStore.load (index_path config_path : String) (disk : Disk) :
    Except Err FAISSDocumentStore :=
  match disk.lookup config_path with
  | some (FileData.faissConfig factory sqlUrl retEmb) =>
    match disk.lookup index_path with
    | some (FileData.faissIndex idx) =>
      match disk.lookup (sqlUrlPath sqlUrl) with
      | some (FileData.sqliteDb ds) =>
        Except.ok { sql_url := sqlUrl, faiss_index_factory_str := factory,
                    return_embedding := retEmb, docs := ds, index := idx }
      | _ => Except.error (Err.fileNotFound (sqlUrlPath sqlUrl))
    | _ => Except.error (Err.fileNotFound index_path)
  | _ => Except.error (Err.fileNotFound config_path)

/-- The in-memory store used by the sparse notebook; it holds its Documents in
process memory only.  Modelled from the spec: "or in-memory structure". -/
structure InMemoryDocumentStore where
  use_bm25 : Bool
  docs : List DocumentT
deriving DecidableEq

def InMemoryDocumentStore.init (useBm25 : Bool) : InMemoryDocumentStore :=
  { use_bm25 := useBm25, docs := [] }

def InMemoryDocumentStore.write_documents (s : InMemoryDocumentStore)
    (ds : List DocumentT) : InMemoryDocumentStore :=
  { s with docs := s.docs ++ ds }

/-! ### Models, retrievers, reader, pipeline

The pretrained models (sentence-transformers embedder, RoBERTa extractive
reader) and the BM25 scorer are external and opaque; they appear as the
`Models` parameter.  The pipeline wiring is modelled from the spec: "Compose
retriever and reader into a fixed two-stage pipeline object." -/

/-- An extracted answer span with its confidence score and the id of the
Document it came from, per the spec's Prediction/Answer entity. -/
structure Answer where
  answer : String
  score : Int
  document_id : Nat
deriving DecidableEq

/-- Opaque external behaviour: the sentence-embedding model, the extractive QA
model, and BM25 scoring.  Modelled from the spec: "All substantive computation
(embedding generation, BM25 scoring, neural reading comprehension, vector
indexing) is delegated to external library calls and pretrained models". -/
structure Models where
  embed : String → List Int
  extract : String → DocumentT → List Answer
  bm25 : String → DocumentT → Int

def dot : List Int → List Int → Int
  | a :: as, b :: bs => a * b + dot as bs
  | _, _ => 0

def indexLookup (idx : List (Nat × List Int)) (i : Nat) : List Int :=
  match idx.find? fun e => e.1 = i with
  | some e => e.2
  | none => []

/-- The reader component; the notebooks configure it with a model name and
`use_gpu`. -/
structure FARMReader where
  model_name_or_path : String
  use_gpu : Bool
deriving DecidableEq

/-- The retriever bound to its document store: either the dense
`EmbeddingRetriever` over a FAISS store or the sparse `BM25Retriever` over the
in-memory store. -/
inductive Retriever where
  | embedding (document_store : FAISSDocumentStore) (embedding_model : String)
  | bm25 (document_store : InMemoryDocumentStore)
deriving DecidableEq

/-- The Documents held by the retriever's document store. -/
def Retriever.storeDocs : Retriever → List DocumentT
  | .embedding s _ => s.docs
  | .bm25 s => s.docs

/-- The retriever's relevance score for one Document: dot product of the query
embedding with the Document's indexed embedding for the dense retriever, BM25
lexical score for the sparse one.  Modelled from the spec's glossary: "Dense
retriever: ranks text by embedding-space similarity. Sparse retriever: ranks
text by lexical overlap (e.g., BM25)." -/
def Retriever.scoreOf (m : Models) (query : String) : Retriever → DocumentT → Int
  | .embedding s _ => fun d => dot (m.embed query) (indexLookup s.index d.id)
  | .bm25 _ => fun d => m.bm25 query d

/-- Descending order on retriever scores. -/
def docGE (score : DocumentT → Int) (a b : DocumentT) : Prop :=
  score b ≤ score a

instance (score : DocumentT → Int) : DecidableRel (docGE score) := fun a b =>
  inferInstanceAs (Decidable (score b ≤ score a))

instance (score : DocumentT → Int) : IsTotal DocumentT (docGE score) :=
  ⟨fun a b => le_total (score b) (score a)⟩

instance (score : DocumentT → Int) : IsTrans DocumentT (docGE score) :=
  ⟨fun _ _ _ h h' => le_trans h' h⟩

/-- Descending order on answer scores. -/
def ansGE (a b : Answer) : Prop := b.score ≤ a.score

instance : DecidableRel ansGE := fun a b =>
  inferInstanceAs (Decidable (b.score ≤ a.score))

instance : IsTotal Answer ansGE := ⟨fun a b => le_total b.score a.score⟩

instance : IsTrans Answer ansGE := ⟨fun _ _ _ h h' => le_trans h' h⟩

/-- The retrieval stage: rank the store's Documents by score and keep the best
`top_k`.  Modelled from the spec: "the retriever first selects a ranked subset
of Documents from the document store". -/
def Retriever.retrieve (r : Retriever) (m : Models) (query : String)
    (top_k : Nat) : List DocumentT :=
  (r.storeDocs.insertionSort (docGE (r.scoreOf m query))).take top_k

/-- Keyword parameters of `pipe.run`: `{"Retriever": {"top_k": _},
"Reader": {"top_k": _}}`. -/
structure RunParams where
  retriever_top_k : Nat
  reader_top_k : Nat
deriving DecidableEq

/-- The ephemeral per-query result object, per the spec's data model. -/
structure Prediction where
  query : String
  answers : List Answer
  documents : List DocumentT
deriving DecidableEq

structure ExtractiveQAPipeline where
  reader : FARMReader
  retriever : Retriever
deriving DecidableEq

/-- `pipe.run`: the fixed two-stage pipeline.  The retriever selects a ranked
subset of the store's Documents; the reader extracts answer spans from exactly
those Documents and returns the best `reader_top_k` of them ranked by score.
Modelled from the spec: "Compose retriever and reader into a fixed two-stage
pipeline object. Execute a query, printing ranked answers." -/
def ExtractiveQAPipeline.run (p : ExtractiveQAPipeline) (m : Models)
    (query : String) (params : RunParams) : Prediction :=
  let retrieved := p.retriever.retrieve m query params.retriever_top_k
  let candidates := retrieved.flatMap (m.extract query)
  { query := query,
    answers := (candidates.insertionSort ansGE).take params.reader_top_k,
    documents := retrieved }

/-- `print_answers`: format the prediction's answers for standard output.
Modelled from the spec: "Output: printed ranked answers to standard output". -/
def print_answers (pred : Prediction) (details : String) : List String :=
  pred.answers.map fun a => details ++ ": " ++ a.answer

/-! ### The dense notebook, cell by cell (`QnA_Mahabharata_Dense.ipynb`) -/

def doc_dir : String := "data/Mahabharata"

def denseModelName : String := "sentence-transformers/multi-qa-mpnet-base-dot-v1"

def readerModelName : String := "deepset/roberta-base-squad2"

/-- Cell: `FAISSDocumentStore(sql_url="sqlite:///mahabharata.db",
faiss_index_factory_str="Flat", return_embedding=True)`. -/
def denseInit (d0 : Disk) : FAISSDocumentStore × Disk :=
  FAISSDocumentStore.init "sqlite:///mahabharata.db" "Flat" true d0

/-- Cell: the dense notebook's `PreProcessor(...)` keyword arguments. -/
def denseProcessor : PreProcessor :=
  { clean_empty_lines := true, clean_whitespace := true,
    clean_header_footer := true, split_by := "word", split_length := 100,
    split_overlap := 0, split_respect_sentence_boundary := true }

/-- Cell: `convert_files_to_docs(dir_path=doc_dir, ...)`. -/
def denseRaws (d0 : Disk) : Except Err (List RawDoc) :=
  convert_files_to_docs doc_dir (denseInit d0).2

/-- Cell: `docs = processor.process(files_to_docs)`. -/
def denseDocs (d0 : Disk) : Except Err (List DocumentT) :=
  (denseRaws d0).map denseProcessor.process

/-- Cell: `sqlite_document_store.write_documents(docs)`. -/
def denseAfterWrite (d0 : Disk) : Except Err (FAISSDocumentStore × Disk) :=
  (denseDocs d0).map fun ds =>
    (denseInit d0).1.write_documents ds (denseInit d0).2

/-- Cell: `sqlite_document_store.update_embeddings(retriever)`; the retriever's
embedding model is `m.embed`. -/
def denseAfterUpdate (m : Models) (d0 : Disk) :
    Except Err (FAISSDocumentStore × Disk) :=
  (denseAfterWrite d0).map fun sd => sd.1.update_embeddings m.embed sd.2

/-- Cell: `sqlite_document_store.save("mahabharata_faiss")`. -/
def denseAfterSave (m : Models) (d0 : Disk) :
    Except Err (FAISSDocumentStore × Disk) :=
  (denseAfterUpdate m d0).map fun sd => (sd.1, sd.1.save "mahabharata_faiss" sd.2)

/-- The notebook's `assert sqlite_document_store.faiss_index_factory_str ==
"Flat"` right after `FAISSDocumentStore.load`. -/
def assertFactoryFlat (s : FAISSDocumentStore) : Except Err Unit :=
  if s.faiss_index_factory_str = "Flat" then Except.ok ()
  else Except.error Err.assertionError

/-- Cell: `FAISSDocumentStore.load(index_path="mahabharata_faiss",
config_path="mahabharata_faiss.json")` followed by the factory assert, in the
main flow of the notebook. -/
def denseLoaded (m : Models) (d0 : Disk) :
    Except Err (FAISSDocumentStore × Disk) :=
  (denseAfterSave m d0).bind fun sd =>
    (FAISSDocumentStore.load "mahabharata_faiss" "mahabharata_faiss.json" sd.2).bind
      fun s => (assertFactoryFlat s).map fun _ => (s, sd.2)

/-- Cell: `FARMReader(model_name_or_path="deepset/roberta-base-squad2",
use_gpu=True)`. -/
def denseReader : FARMReader :=
  { model_name_or_path := readerModelName, use_gpu := true }

/-- Cell: `ExtractiveQAPipeline(reader, retriever)` where the retriever is the
`EmbeddingRetriever` rebuilt on the loaded store. -/
def densePipe (s : FAISSDocumentStore) : ExtractiveQAPipeline :=
  { reader := denseReader, retriever := Retriever.embedding s denseModelName }

def denseQuery : String := "Who is Krishna?"

/-- The `params={"Retriever": {"top_k": 10}, "Reader": {"top_k": 2}}` keyword
argument of the dense notebook's `pipe.run`. -/
def denseParams : RunParams := { retriever_top_k := 10, reader_top_k := 2 }

/-- Cell: `prediction = pipe.run(query=..., params=...)`. -/
def densePrediction (m : Models) (d0 : Disk) : Except Err Prediction :=
  (denseLoaded m d0).map fun sd => (densePipe sd.1).run m denseQuery denseParams

/-- Observable state when the dense notebook finishes: the file system, the
document store in scope, the prediction, and the printed output. -/
structure DenseResult where
  disk : Disk
  store : FAISSDocumentStore
  prediction : Prediction
  printed : List String
deriving DecidableEq

/-- The complete dense notebook run, from an initial file system `d0` and the
opaque pretrained models `m`. -/
def denseRun (m : Models) (d0 : Disk) : Except Err DenseResult :=
  (denseLoaded m d0).map fun sd =>
    let pred := (densePipe sd.1).run m denseQuery denseParams
    { disk := sd.2, store := sd.1, prediction := pred,
      printed := print_answers pred "medium" }

/-! ### The sparse notebook, cell by cell (`QnA_Mahabharata_Sparse.ipynb`) -/

/-- Cell: `InMemoryDocumentStore(use_bm25=True)`. -/
def sparseInit : InMemoryDocumentStore := InMemoryDocumentStore.init true

/-- Cell: the sparse notebook's `PreProcessor(...)` keyword arguments. -/
def sparseProcessor : PreProcessor :=
  { clean_empty_lines := true, clean_whitespace := true,
    clean_header_footer := false, split_by := "word", split_length := 500,
    split_overlap := 50, split_respect_sentence_boundary := false }

/-- Cell: `files_to_index = [doc_dir + "/1-18 books combined.txt"]`. -/
def sparseFiles : List String := [doc_dir ++ "/1-18 books combined.txt"]

/-- Reading one text file from disk; reading does not modify the file system,
so the disk is returned unchanged.  A missing file raises. -/
def readTextFile (p : String) (disk : Disk) : Except Err (RawDoc × Disk) :=
  match disk.lookup p with
  | some (FileData.text s) => Except.ok ({ content := s, origin := p }, disk)
  | _ => Except.error (Err.fileNotFound p)

def readTextFiles (paths : List String) (disk : Disk) :
    Except Err (List RawDoc × Disk) :=
  match paths with
  | [] => Except.ok ([], disk)
  | p :: rest =>
    (readTextFile p disk).bind fun rd =>
      (readTextFiles rest rd.2).map fun rs => (rd.1 :: rs.1, rs.2)

/-- `TextIndexingPipeline(store, preprocessor=...)`: converts the given text
files and writes the pre-processed Documents into its store.  Modelled from
the spec: "Load raw text files, pre-process them into chunks ..., and write
them into the document store." -/
structure TextIndexingPipeline where
  document_store : InMemoryDocumentStore
  preprocessor : PreProcessor

/-- `indexing_pipeline.run_batch(file_paths=...)`. -/
def TextIndexingPipeline.run_batch (tp : TextIndexingPipeline)
    (file_paths : List String) (disk : Disk) :
    Except Err (InMemoryDocumentStore × Disk) :=
  (readTextFiles file_paths disk).map fun rs =>
    (tp.document_store.write_documents (tp.preprocessor.process rs.1), rs.2)

/-- The store after the sparse notebook's indexing cell. -/
def sparseStore (d0 : Disk) : Except Err (InMemoryDocumentStore × Disk) :=
  (TextIndexingPipeline.mk sparseInit sparseProcessor).run_batch sparseFiles d0

/-- Cell: `FARMReader(model_name_or_path="deepset/roberta-base-squad2",
use_gpu=True)`. -/
def sparseReader : FARMReader :=
  { model_name_or_path := readerModelName, use_gpu := true }

/-- Cell: `ExtractiveQAPipeline(reader, retriever)` with the `BM25Retriever`
bound to the in-memory store. -/
def sparsePipe (s : InMemoryDocumentStore) : ExtractiveQAPipeline :=
  { reader := sparseReader, retriever := Retriever.bm25 s }

def sparseQuery : String := "Who is Krishna?"

/-- The `params={"Retriever": {"top_k": 10}, "Reader": {"top_k": 2}}` keyword
argument of the sparse notebook's `pipe.run`. -/
def sparseParams : RunParams := { retriever_top_k := 10, reader_top_k := 2 }

/-- Cell: `prediction = pipe.run(query=..., params=...)`. -/
def sparsePrediction (m : Models) (d0 : Disk) : Except Err Prediction :=
  (sparseStore d0).map fun sd => (sparsePipe sd.1).run m sparseQuery sparseParams

/-- Observable state when the sparse notebook finishes. -/
structure SparseResult where
  disk : Disk
  store : InMemoryDocumentStore
  prediction : Prediction
  printed : List String
deriving DecidableEq

/-- The complete sparse notebook run: indexing, query, `pprint` and
`print_answers`. -/
def sparseRun (m : Models) (d0 : Disk) : Except Err SparseResult :=
  (sparseStore d0).map fun sd =>
    let pred := (sparsePipe sd.1).run m sparseQuery sparseParams
    { disk := sd.2, store := sd.1, prediction := pred,
      printed := print_answers pred "medium" }


/-- The dense notebook's re-run cell taken on its own: load the persisted
store, assert the factory string is `"Flat"`, and only then construct the
`EmbeddingRetriever` on the loaded store. -/
def denseReRun (disk : Disk) : Except Err Retriever :=
  (FAISSDocumentStore.load "mahabharata_faiss" "mahabharata_faiss.json" disk).bind
    fun s => (assertFactoryFlat s).map fun _ => Retriever.embedding s denseModelName

/-! ### Named intermediate states of the dense chain (used in theorem
statements) -/

/-- Store and disk right after the dense notebook's `write_documents` cell,
given the converted raw documents. -/
def denseStoreW (d0 : Disk) (raws : List RawDoc) : FAISSDocumentStore × Disk :=
  (denseInit d0).1.write_documents (denseProcessor.process raws) (denseInit d0).2

/-- Store and disk right after the dense notebook's `update_embeddings` cell. -/
def denseStoreU (m : Models) (d0 : Disk) (raws : List RawDoc) :
    FAISSDocumentStore × Disk :=
  (denseStoreW d0 raws).1.update_embeddings m.embed (denseStoreW d0 raws).2

/-- The disk right after the dense notebook's `save` cell. -/
def denseStoreS (m : Models) (d0 : Disk) (raws : List RawDoc) : Disk :=
  ((denseStoreU m d0 raws).1).save "mahabharata_faiss" (denseStoreU m d0 raws).2

/-! ### Concrete test fixtures (used by witnesses) -/

/-- Concrete stand-in for the opaque pretrained models: a constant embedder
and a reader that extracts each Document's content as one answer. -/
def testModels : Models :=
  { embed := fun _ => [1],
    extract := fun _ d => [{ answer := d.content, score := 1, document_id := d.id }],
    bm25 := fun _ _ => 1 }

/-- A tiny corpus directory with two plain-text files. -/
def testDisk : Disk :=
  [("data/Mahabharata/1-18 books combined.txt", FileData.text "a b"),
   ("data/Mahabharata/extra.txt", FileData.text "zzz")]

def testDoc : DocumentT :=
  { id := 0, content := "hello", origin := "f.txt", embedding := none }

def testInMemStore : InMemoryDocumentStore := { use_bm25 := true, docs := [testDoc] }

/-- The raw documents `convert_files_to_docs` produces on `testDisk`. -/
def testRaws : List RawDoc :=
  [{ content := "zzz", origin := "data/Mahabharata/extra.txt" },
   { content := "a b", origin := "data/Mahabharata/1-18 books combined.txt" }]

/-- The dense notebook's prediction on the test fixtures, written out. -/
def testDensePred : Prediction :=
  { query := "Who is Krishna?",
    answers := [{ answer := "zzz", score := 1, document_id := 0 },
                { answer := "a b", score := 1, document_id := 1 }],
    documents :=
      [{ id := 0, content := "zzz", origin := "data/Mahabharata/extra.txt",
         embedding := some [1] },
       { id := 1, content := "a b",
         origin := "data/Mahabharata/1-18 books combined.txt",
         embedding := some [1] }] }

/-- The sparse notebook's prediction on the test fixtures, written out. -/
def testSparsePred : Prediction :=
  { query := "Who is Krishna?",
    answers := [{ answer := "a b", score := 1, document_id := 0 }],
    documents :=
      [{ id := 0, content := "a b",
         origin := "data/Mahabharata/1-18 books combined.txt",
         embedding := none }] }

/-- The sparse notebook's full observable result on the test fixtures. -/
def testSparseResult : SparseResult :=
  { disk := testDisk,
    store := { use_bm25 := true,
               docs := [{ id := 0, content := "a b",
                          origin := "data/Mahabharata/1-18 books combined.txt",
                          embedding := none }] },
    prediction := testSparsePred,
    printed := ["medium: a b"] }

/-- A concrete already-updated FAISS store, for exercising save/load. -/
def testFAISS : FAISSDocumentStore :=
  { sql_url := "sqlite:///mahabharata.db", faiss_index_factory_str := "Flat",
    return_embedding := true,
    docs := [{ id := 0, content := "hello", origin := "f.txt", embedding := some [1] }],
    index := [(0, [1])] }

/-- A disk whose database file already holds `testFAISS`'s documents. -/
def testFaissDisk : Disk :=
  [("mahabharata.db",
    FileData.sqliteDb
      [{ id := 0, content := "hello", origin := "f.txt", embedding := some [1] }])]

/-- A persisted store whose index factory string is not `"Flat"`. -/
def badDisk : Disk :=
  [("mahabharata_faiss.json", FileData.faissConfig "HNSW" "sqlite:///m.db" true),
   ("mahabharata_faiss", FileData.faissIndex []),
   ("m.db", FileData.sqliteDb [])]

/-- The store `FAISSDocumentStore.load` reconstructs from `badDisk`. -/
def badStore : FAISSDocumentStore :=
  { sql_url := "sqlite:///m.db", faiss_index_factory_str := "HNSW",
    return_embedding := true, docs := [], index := [] }

/-- A document of the updated dense store on the test fixtures. -/
def testUpdatedDoc : DocumentT :=
  { id := 0, content := "zzz", origin := "data/Mahabharata/extra.txt",
    embedding := some [1] }

/-! ### Helper lemmas -/

theorem Disk.lookup_writeFile (d : Disk) (p q : String) (f : FileData) :
    (d.writeFile p f).lookup q = if q = p then some f else d.lookup q := rfl

theorem Disk.lookup_mem {d : Disk} {p : String} {v : FileData}
    (h : d.lookup p = some v) : (p, v) ∈ d := by
  induction d with
  | nil => simp [Disk.lookup] at h
  | cons e rest ih =>
    obtain ⟨q, f⟩ := e
    by_cases hpq : p = q
    · subst hpq
      simp [Disk.lookup] at h
      subst h
      exact List.mem_cons_self _ _
    · simp [Disk.lookup, hpq] at h
      exact List.mem_cons_of_mem _ (ih h)

theorem chunkWordsAux_ne_nil (L O fuel : Nat) (ws : List String) :
    chunkWordsAux L O fuel ws ≠ [] := by
  cases fuel with
  | zero => simp [chunkWordsAux]
  | succ n =>
    by_cases h : ws.length ≤ L ∨ L ≤ O <;> simp [chunkWordsAux, h]

theorem chunkWords_ne_nil (L O : Nat) (ws : List String) :
    chunkWords L O ws ≠ [] := chunkWordsAux_ne_nil L O ws.length ws

theorem exceptMap_eq_ok {ε α β : Type} (f : α → β) (x : Except ε α) (y : β)
    (h : x.map f = Except.ok y) : ∃ a, x = Except.ok a ∧ y = f a := by
  cases x with
  | ok a => exact ⟨a, rfl, by simpa [Except.map] using h.symm⟩
  | error e => simp [Except.map] at h

theorem exceptBind_eq_ok {ε α β : Type} (f : α → Except ε β) (x : Except ε α)
    (y : β) (h : x.bind f = Except.ok y) :
    ∃ a, x = Except.ok a ∧ f a = Except.ok y := by
  cases x with
  | ok a => exact ⟨a, rfl, h⟩
  | error e => simp [Except.bind] at h

theorem exceptMap_error {ε α β : Type} (f : α → β) (x : Except ε α) (e : ε)
    (h : x = Except.error e) : x.map f = Except.error e := by
  subst h; rfl

theorem run_length_bounds (p : ExtractiveQAPipeline) (m : Models)
    (query : String) (params : RunParams) :
    (p.run m query params).documents.length ≤ params.retriever_top_k ∧
    (p.run m query params).answers.length ≤ params.reader_top_k := by
  constructor <;>
    simp [ExtractiveQAPipeline.run, Retriever.retrieve, List.length_take]

/-- Origins are preserved by pre-processing: the origin multiset of the
processed Documents is one copy of the raw document's origin per chunk. -/
theorem process_map_origin (pp : PreProcessor) (raws : List RawDoc) :
    (pp.process raws).map (fun d => d.origin)
      = raws.flatMap fun r =>
          (chunkWords pp.split_length pp.split_overlap (wordsOf r.content)).map
            fun _ => r.origin := by
  unfold PreProcessor.process
  rw [List.map_map]
  have hcomp : ((fun d : DocumentT => d.origin) ∘
      fun ic : Nat × (String × String) =>
        ({ id := ic.1, content := ic.2.1, origin := ic.2.2,
           embedding := none } : DocumentT))
      = (fun c : String × String => c.2) ∘ Prod.snd := rfl
  rw [hcomp, ← List.map_map, List.enum_map_snd, List.map_flatMap]
  congr 1
  funext r
  rw [List.map_map]
  rfl

/-- Every raw document contributes at least one processed Document carrying
its origin. -/
theorem process_origin_surj (pp : PreProcessor) (raws : List RawDoc)
    (r : RawDoc) (hr : r ∈ raws) :
    ∃ d ∈ pp.process raws, d.origin = r.origin := by
  have hne := chunkWords_ne_nil pp.split_length pp.split_overlap (wordsOf r.content)
  have hmem : r.origin ∈ (pp.process raws).map fun d => d.origin := by
    rw [process_map_origin]
    refine List.mem_flatMap.mpr ⟨r, hr, ?_⟩
    cases h : chunkWords pp.split_length pp.split_overlap (wordsOf r.content) with
    | nil => exact absurd h hne
    | cons a l => simp
  obtain ⟨d, hd, hod⟩ := List.mem_map.mp hmem
  exact ⟨d, hd, hod⟩

/-- Every processed Document's origin is the origin of one of the raw
documents. -/
theorem process_origin_mem (pp : PreProcessor) (raws : List RawDoc)
    (d : DocumentT) (hd : d ∈ pp.process raws) :
    ∃ r ∈ raws, d.origin = r.origin := by
  have hmem : d.origin ∈ (pp.process raws).map fun d => d.origin :=
    List.mem_map.mpr ⟨d, hd, rfl⟩
  rw [process_map_origin] at hmem
  obtain ⟨r, hr, hin⟩ := List.mem_flatMap.mp hmem
  obtain ⟨_, _, h⟩ := List.mem_map.mp hin
  exact ⟨r, hr, h.symm⟩

/-- Successful conversion yields one raw document per plain-text file of the
directory. -/
theorem convert_origin_surj (dir : String) (disk : Disk) (raws : List RawDoc)
    (h : convert_files_to_docs dir disk = Except.ok raws) (p : String)
    (hp : isTextFileIn dir disk p = true) :
    ∃ r ∈ raws, r.origin = p := by
  unfold convert_files_to_docs at h
  obtain ⟨hstart, s, hs⟩ : strStartsWith p (dir ++ "/") = true ∧
      ∃ s, disk.lookup p = some (FileData.text s) := by
    unfold isTextFileIn at hp
    rcases Bool.and_eq_true_iff.mp hp with ⟨h1, h2⟩
    refine ⟨h1, ?_⟩
    revert h2
    cases hlk : disk.lookup p with
    | none => simp
    | some fd => cases fd <;> simp
  have hok : raws = convertedRaws dir disk := by
    by_cases hemp : (convertedRaws dir disk).isEmpty
    · simp [hemp] at h
    · simp [hemp] at h
      exact h.symm
  subst hok
  refine ⟨{ content := s, origin := p }, ?_, rfl⟩
  unfold convertedRaws
  refine List.mem_filterMap.mpr ⟨(p, FileData.text s), ?_, ?_⟩
  · exact List.mem_reverse.mpr (Disk.lookup_mem hs)
  · simp [hstart, hs]

theorem denseDocs_ok (d0 : Disk) (raws : List RawDoc)
    (h : denseRaws d0 = Except.ok raws) :
    denseDocs d0 = Except.ok (denseProcessor.process raws) := by
  simp [denseDocs, h, Except.map]

theorem denseAfterWrite_ok (d0 : Disk) (raws : List RawDoc)
    (h : denseRaws d0 = Except.ok raws) :
    denseAfterWrite d0 = Except.ok (denseStoreW d0 raws) := by
  simp [denseAfterWrite, denseDocs_ok d0 raws h, Except.map, denseStoreW]

theorem denseAfterUpdate_ok (m : Models) (d0 : Disk) (raws : List RawDoc)
    (h : denseRaws d0 = Except.ok raws) :
    denseAfterUpdate m d0 = Except.ok (denseStoreU m d0 raws) := by
  simp [denseAfterUpdate, denseAfterWrite_ok d0 raws h, Except.map, denseStoreU]

theorem denseAfterSave_ok (m : Models) (d0 : Disk) (raws : List RawDoc)
    (h : denseRaws d0 = Except.ok raws) :
    denseAfterSave m d0
      = Except.ok ((denseStoreU m d0 raws).1, denseStoreS m d0 raws) := by
  simp [denseAfterSave, denseAfterUpdate_ok m d0 raws h, Except.map, denseStoreS]

theorem denseStoreU_sql_url (m : Models) (d0 : Disk) (raws : List RawDoc) :
    (denseStoreU m d0 raws).1.sql_url = "sqlite:///mahabharata.db" := rfl

theorem denseStoreU_factory (m : Models) (d0 : Disk) (raws : List RawDoc) :
    (denseStoreU m d0 raws).1.faiss_index_factory_str = "Flat" := rfl

theorem denseStoreU_db (m : Models) (d0 : Disk) (raws : List RawDoc) :
    (denseStoreU m d0 raws).2.lookup (sqlUrlPath (denseStoreU m d0 raws).1.sql_url)
      = some (FileData.sqliteDb (denseStoreU m d0 raws).1.docs) := by
  simp [denseStoreU, FAISSDocumentStore.update_embeddings, Disk.lookup_writeFile]

/-- Round trip: loading right after `save` recovers the saved store exactly,
provided the backing database file holds the store's documents. -/
theorem load_after_save (s : FAISSDocumentStore) (disk : Disk)
    (hurl : s.sql_url = "sqlite:///mahabharata.db")
    (hdb : disk.lookup (sqlUrlPath s.sql_url) = some (FileData.sqliteDb s.docs)) :
    FAISSDocumentStore.load "mahabharata_faiss" "mahabharata_faiss.json"
      (s.save "mahabharata_faiss" disk) = Except.ok s := by
  obtain ⟨url, factory, retEmb, ds, ix⟩ := s
  simp only at hurl hdb
  subst hurl
  have hpath : sqlUrlPath "sqlite:///mahabharata.db" = "mahabharata.db" := by decide
  rw [hpath] at hdb
  simp [FAISSDocumentStore.save, FAISSDocumentStore.load, Disk.writeFile,
    Disk.lookup, hpath, hdb]

theorem denseLoaded_ok (m : Models) (d0 : Disk) (raws : List RawDoc)
    (h : denseRaws d0 = Except.ok raws) :
    denseLoaded m d0
      = Except.ok ((denseStoreU m d0 raws).1, denseStoreS m d0 raws) := by
  have hload := load_after_save (denseStoreU m d0 raws).1 (denseStoreU m d0 raws).2
    (denseStoreU_sql_url m d0 raws) (denseStoreU_db m d0 raws)
  simp [denseLoaded, denseAfterSave_ok m d0 raws h, Except.bind, denseStoreS,
    hload, assertFactoryFlat, denseStoreU_factory, Except.map]

theorem densePrediction_ok (m : Models) (d0 : Disk) (raws : List RawDoc)
    (h : denseRaws d0 = Except.ok raws) :
    densePrediction m d0 = Except.ok
      ((densePipe (denseStoreU m d0 raws).1).run m denseQuery denseParams) := by
  simp [densePrediction, denseLoaded_ok m d0 raws h, Except.map]

theorem denseRun_ok (m : Models) (d0 : Disk) (raws : List RawDoc)
    (h : denseRaws d0 = Except.ok raws) :
    denseRun m d0 = Except.ok
      { disk := denseStoreS m d0 raws, store := (denseStoreU m d0 raws).1,
        prediction := (densePipe (denseStoreU m d0 raws).1).run m denseQuery denseParams,
        printed := print_answers
          ((densePipe (denseStoreU m d0 raws).1).run m denseQuery denseParams)
          "medium" } := by
  simp [denseRun, denseLoaded_ok m d0 raws h, Except.map]

theorem denseRun_ok_raws (m : Models) (d0 : Disk) (r : DenseResult)
    (h : denseRun m d0 = Except.ok r) :
    ∃ raws, denseRaws d0 = Except.ok raws := by
  unfold denseRun at h
  obtain ⟨sd, hL, _⟩ := exceptMap_eq_ok _ _ _ h
  unfold denseLoaded at hL
  obtain ⟨sd', hS, _⟩ := exceptBind_eq_ok _ _ _ hL
  unfold denseAfterSave at hS
  obtain ⟨sd'', hU, _⟩ := exceptMap_eq_ok _ _ _ hS
  unfold denseAfterUpdate at hU
  obtain ⟨sd3, hW, _⟩ := exceptMap_eq_ok _ _ _ hU
  unfold denseAfterWrite at hW
  obtain ⟨ds, hD, _⟩ := exceptMap_eq_ok _ _ _ hW
  unfold denseDocs at hD
  obtain ⟨raws, hR, _⟩ := exceptMap_eq_ok _ _ _ hD
  exact ⟨raws, hR⟩

theorem readTextFile_disk (p : String) (disk : Disk) (rd : RawDoc × Disk)
    (h : readTextFile p disk = Except.ok rd) : rd.2 = disk := by
  unfold readTextFile at h
  cases hlk : disk.lookup p with
  | none => rw [hlk] at h; simp at h
  | some fd =>
    rw [hlk] at h
    cases fd with
    | text s => simp at h; rw [← h]
    | sqliteDb ds => simp at h
    | faissIndex ix => simp at h
    | faissConfig a b c => simp at h

theorem readTextFiles_disk (paths : List String) (disk : Disk)
    (rs : List RawDoc × Disk) (h : readTextFiles paths disk = Except.ok rs) :
    rs.2 = disk := by
  induction paths generalizing disk rs with
  | nil =>
    unfold readTextFiles at h
    simp at h
    rw [← h]
  | cons p rest ih =>
    unfold readTextFiles at h
    obtain ⟨rd, hrd, h2⟩ := exceptBind_eq_ok _ _ _ h
    obtain ⟨rs', hrs', h3⟩ := exceptMap_eq_ok _ _ _ h2
    have hdisk := readTextFile_disk p disk rd hrd
    have hdisk' := ih rd.2 rs' hrs'
    rw [h3]
    simpa [hdisk] using hdisk'

theorem sparseStore_ok_inv (d0 : Disk) (sd : InMemoryDocumentStore × Disk)
    (h : sparseStore d0 = Except.ok sd) :
    ∃ rs, readTextFiles sparseFiles d0 = Except.ok rs ∧
      sd.1 = sparseInit.write_documents (sparseProcessor.process rs.1) ∧
      sd.2 = d0 := by
  unfold sparseStore TextIndexingPipeline.run_batch at h
  obtain ⟨rs, hrs, heq⟩ := exceptMap_eq_ok _ _ _ h
  refine ⟨rs, hrs, ?_, ?_⟩
  · rw [heq]
  · rw [heq]
    exact readTextFiles_disk _ _ _ hrs

theorem sparseRun_ok_inv (m : Models) (d0 : Disk) (r : SparseResult)
    (h : sparseRun m d0 = Except.ok r) :
    ∃ sd, sparseStore d0 = Except.ok sd ∧ r.disk = sd.2 ∧ r.store = sd.1 := by
  unfold sparseRun at h
  obtain ⟨sd, hsd, heq⟩ := exceptMap_eq_ok _ _ _ h
  exact ⟨sd, hsd, by rw [heq], by rw [heq]⟩

/-! ### Claim theorems -/

/-- **C1.** For every query string, running the `ExtractiveQAPipeline` (in
either notebook, i.e. for any retriever) performs exactly two stages in a
fixed order: the retriever first selects a ranked subset of Documents from the
document store (`documents` is the retriever's output, every such Document is
in the store, and they are ranked by retriever score); the reader extracts
answer spans only from those retrieved Documents (every returned answer comes
from the reader applied to a retrieved Document); and the run returns ranked
answers (sorted by answer score). -/
theorem C1_pipeline_two_stage (p : ExtractiveQAPipeline) (m : Models)
    (query : String) (params : RunParams) :
    (p.run m query params).documents
        = p.retriever.retrieve m query params.retriever_top_k ∧
    (∀ d ∈ (p.run m query params).documents, d ∈ p.retriever.storeDocs) ∧
    List.Sorted (docGE (p.retriever.scoreOf m query)) (p.run m query params).documents ∧
    (∀ a ∈ (p.run m query params).answers,
      ∃ d ∈ (p.run m query params).documents, a ∈ m.extract query d) ∧
    List.Sorted ansGE (p.run m query params).answers := by
  refine ⟨rfl, ?_, ?_, ?_, ?_⟩
  · intro d hd
    have hd' : d ∈ (p.retriever.storeDocs.insertionSort
        (docGE (p.retriever.scoreOf m query))).take params.retriever_top_k := hd
    have := List.take_subset _ _ hd'
    rwa [List.mem_insertionSort] at this
  · exact List.Pairwise.sublist (List.take_sublist _ _)
      (List.sorted_insertionSort _ _)
  · intro a ha
    have ha' : a ∈ ((p.retriever.retrieve m query params.retriever_top_k).flatMap
        (m.extract query)).insertionSort ansGE := List.take_subset _ _ ha
    rw [List.mem_insertionSort, List.mem_flatMap] at ha'
    exact ha'
  · exact List.Pairwise.sublist (List.take_sublist _ _)
      (List.sorted_insertionSort _ _)

/-- Witness for C1: on a concrete one-document store, query and models, the
single returned answer indeed comes from the reader applied to a retrieved
Document. -/
theorem C1_pipeline_two_stage_witness :
    ∃ d ∈ ((sparsePipe testInMemStore).run testModels "q" sparseParams).documents,
      { answer := "hello", score := 1, document_id := 0 : Answer }
        ∈ testModels.extract "q" d :=
  (C1_pipeline_two_stage (sparsePipe testInMemStore) testModels "q"
    sparseParams).2.2.2.1 _ (by decide)

/-- **C2.** Both notebooks invoke `pipe.run` with keyword parameters
`Retriever top_k = 10` and `Reader top_k = 2`; consequently, whenever the run
returns, the prediction carries at most 10 retrieved Documents and at most 2
ranked answers. -/
theorem C2_run_top_k (m : Models) (d0 : Disk) :
    denseParams = { retriever_top_k := 10, reader_top_k := 2 } ∧
    sparseParams = { retriever_top_k := 10, reader_top_k := 2 } ∧
    (∀ pred, densePrediction m d0 = Except.ok pred →
      pred.documents.length ≤ 10 ∧ pred.answers.length ≤ 2) ∧
    (∀ pred, sparsePrediction m d0 = Except.ok pred →
      pred.documents.length ≤ 10 ∧ pred.answers.length ≤ 2) := by
  refine ⟨rfl, rfl, ?_, ?_⟩
  · intro pred h
    obtain ⟨sd, _, hpred⟩ := exceptMap_eq_ok _ _ _ h
    subst hpred
    exact run_length_bounds (densePipe sd.1) m denseQuery denseParams
  · intro pred h
    obtain ⟨sd, _, hpred⟩ := exceptMap_eq_ok _ _ _ h
    subst hpred
    exact run_length_bounds (sparsePipe sd.1) m sparseQuery sparseParams

set_option maxRecDepth 400000 in
/-- Witness for C2: the concrete dense run on the test corpus returns this
prediction, with at most 10 documents and at most 2 answers. -/
theorem C2_run_top_k_witness :
    testDensePred.documents.length ≤ 10 ∧ testDensePred.answers.length ≤ 2 :=
  (C2_run_top_k testModels testDisk).2.2.1 testDensePred (by decide)

/-- **C3.** Document lifecycle: the dense store starts empty; the single
`write_documents` call puts exactly the pre-processed Documents into it; the
`update_embeddings` pass only annotates each stored Document with an embedding
vector (preserving everything else); and no operation after the update pass —
save, load, query execution, printing — changes any stored Document: the store
observable at the end of the run is exactly the store as of the update pass.
Likewise the sparse store is never modified after its single write. -/
theorem C3_document_lifecycle (m : Models) (d0 : Disk) (raws : List RawDoc)
    (h : denseRaws d0 = Except.ok raws) :
    (denseInit d0).1.docs = [] ∧
    (denseStoreW d0 raws).1.docs = denseProcessor.process raws ∧
    (denseStoreU m d0 raws).1.docs
      = (denseStoreW d0 raws).1.docs.map
          (fun d => { d with embedding := some (m.embed d.content) }) ∧
    (∀ r, denseRun m d0 = Except.ok r → r.store = (denseStoreU m d0 raws).1) ∧
    (∀ sd r, sparseStore d0 = Except.ok sd → sparseRun m d0 = Except.ok r →
      r.store = sd.1) := by
  refine ⟨rfl, ?_, ?_, ?_, ?_⟩
  · simp [denseStoreW, FAISSDocumentStore.write_documents, denseInit,
      FAISSDocumentStore.init]
  · simp [denseStoreU, FAISSDocumentStore.update_embeddings]
  · intro r hr
    rw [denseRun_ok m d0 raws h] at hr
    injection hr with hr'
    rw [← hr']
  · intro sd r hsd hr
    obtain ⟨sd', hsd', _, hstore⟩ := sparseRun_ok_inv m d0 r hr
    rw [hsd] at hsd'
    injection hsd' with h'
    rw [hstore, h']

set_option maxRecDepth 400000 in
/-- Witness for C3: on the concrete test corpus, the store after the write
cell holds exactly the pre-processed Documents. -/
theorem C3_document_lifecycle_witness :
    (denseStoreW testDisk testRaws).1.docs = denseProcessor.process testRaws :=
  (C3_document_lifecycle testModels testDisk testRaws (by decide)).2.1

/-- **C4.** Frame effect: after a complete dense run the file system holds the
relational database file `mahabharata.db`, the serialized vector index
`mahabharata_faiss`, and its config `mahabharata_faiss.json`; a complete
sparse run leaves the file system exactly as it found it. -/
theorem C4_persistent_state (m : Models) (d0 : Disk) :
    (∀ r, denseRun m d0 = Except.ok r →
      (∃ ds, r.disk.lookup "mahabharata.db" = some (FileData.sqliteDb ds)) ∧
      (∃ ix, r.disk.lookup "mahabharata_faiss" = some (FileData.faissIndex ix)) ∧
      (∃ fac url re, r.disk.lookup "mahabharata_faiss.json"
          = some (FileData.faissConfig fac url re))) ∧
    (∀ r, sparseRun m d0 = Except.ok r → r.disk = d0) := by
  constructor
  · intro r hr
    obtain ⟨raws, hraws⟩ := denseRun_ok_raws m d0 r hr
    rw [denseRun_ok m d0 raws hraws] at hr
    injection hr with hr'
    rw [← hr']
    have hpath : sqlUrlPath "sqlite:///mahabharata.db" = "mahabharata.db" := by
      decide
    refine ⟨⟨(denseStoreU m d0 raws).1.docs, ?_⟩,
            ⟨(denseStoreU m d0 raws).1.index, ?_⟩,
            ⟨"Flat", "sqlite:///mahabharata.db", true, ?_⟩⟩ <;>
      simp [denseStoreS, denseStoreU, denseStoreW, FAISSDocumentStore.save,
        FAISSDocumentStore.update_embeddings, FAISSDocumentStore.write_documents,
        denseInit, FAISSDocumentStore.init, Disk.writeFile, Disk.lookup, hpath]
  · intro r hr
    obtain ⟨sd, hsd, hdisk, _⟩ := sparseRun_ok_inv m d0 r hr
    obtain ⟨rs, _, _, hd0⟩ := sparseStore_ok_inv d0 sd hsd
    rw [hdisk, hd0]

set_option maxRecDepth 400000 in
/-- Witness for C4: the concrete sparse run on the test corpus leaves the
file system untouched. -/
theorem C4_persistent_state_witness : testSparseResult.disk = testDisk :=
  (C4_persistent_state testModels testDisk).2 testSparseResult (by decide)

theorem readTextFile_ok (p : String) (disk : Disk) (rd : RawDoc × Disk)
    (h : readTextFile p disk = Except.ok rd) :
    ∃ s, disk.lookup p = some (FileData.text s) ∧
      rd.1 = { content := s, origin := p } := by
  unfold readTextFile at h
  cases hlk : disk.lookup p with
  | none => rw [hlk] at h; simp at h
  | some fd =>
    rw [hlk] at h
    cases fd with
    | text s =>
      simp at h
      exact ⟨s, rfl, by rw [← h]⟩
    | sqliteDb ds => simp at h
    | faissIndex ix => simp at h
    | faissConfig a b c => simp at h

theorem readTextFiles_singleton (p : String) (disk : Disk)
    (rs : List RawDoc × Disk) (h : readTextFiles [p] disk = Except.ok rs) :
    ∃ s, rs.1 = [{ content := s, origin := p }] := by
  unfold readTextFiles at h
  obtain ⟨rd, hrd, h2⟩ := exceptBind_eq_ok _ _ _ h
  unfold readTextFiles at h2
  simp [Except.map] at h2
  obtain ⟨s, _, h1⟩ := readTextFile_ok p disk rd hrd
  refine ⟨s, ?_⟩
  rw [← h2]
  simp [h1]

set_option maxRecDepth 400000 in
/-- Counterexample to **C5** as stated: on a corpus directory that also
contains `extra.txt`, the sparse notebook's run succeeds but writes no
Document originating from `extra.txt` into its store — so it is not the case
that, for each notebook, every plain-text file in `data/Mahabharata`
contributes Documents. -/
theorem C5_counterexample :
    isTextFileIn doc_dir testDisk "data/Mahabharata/extra.txt" = true ∧
    sparseRun testModels testDisk = Except.ok testSparseResult ∧
    ¬ ∃ d ∈ testSparseResult.store.docs,
        d.origin = "data/Mahabharata/extra.txt" := by decide

/-- **C5 (amended).** The corpus input is the directory `data/Mahabharata`,
but the two notebooks consume it differently: the dense notebook converts
every plain-text file in that directory (each contributes at least one stored
Document), while the sparse notebook indexes exactly the single file
`data/Mahabharata/1-18 books combined.txt` — that file contributes Documents,
and every Document in the sparse store originates from it. -/
theorem C5_corpus_input (d0 : Disk) :
    (∀ raws, denseRaws d0 = Except.ok raws →
      ∀ p, isTextFileIn doc_dir (denseInit d0).2 p = true →
        ∃ d ∈ (denseStoreW d0 raws).1.docs, d.origin = p) ∧
    sparseFiles = [doc_dir ++ "/1-18 books combined.txt"] ∧
    (∀ sd, sparseStore d0 = Except.ok sd →
      (∃ d ∈ sd.1.docs, d.origin = doc_dir ++ "/1-18 books combined.txt") ∧
      (∀ d ∈ sd.1.docs, d.origin = doc_dir ++ "/1-18 books combined.txt")) := by
  refine ⟨?_, rfl, ?_⟩
  · intro raws h p hp
    have hconv : convert_files_to_docs doc_dir (denseInit d0).2
        = Except.ok raws := h
    obtain ⟨r, hr, hor⟩ := convert_origin_surj _ _ _ hconv p hp
    obtain ⟨d, hd, hod⟩ := process_origin_surj denseProcessor raws r hr
    refine ⟨d, ?_, by rw [hod, hor]⟩
    have : (denseStoreW d0 raws).1.docs = denseProcessor.process raws := by
      simp [denseStoreW, FAISSDocumentStore.write_documents, denseInit,
        FAISSDocumentStore.init]
    rw [this]
    exact hd
  · intro sd hsd
    obtain ⟨rs, hrs, hstore, _⟩ := sparseStore_ok_inv d0 sd hsd
    obtain ⟨s, hs⟩ := readTextFiles_singleton _ _ _ hrs
    have hdocs : sd.1.docs = sparseProcessor.process rs.1 := by
      rw [hstore]
      simp [InMemoryDocumentStore.write_documents, sparseInit,
        InMemoryDocumentStore.init]
    constructor
    · have hmem : RawDoc.mk s (doc_dir ++ "/1-18 books combined.txt") ∈ rs.1 := by
        rw [hs]
        exact List.mem_singleton.mpr rfl
      obtain ⟨d, hd, hod⟩ := process_origin_surj sparseProcessor rs.1 _ hmem
      exact ⟨d, by rw [hdocs]; exact hd, hod⟩
    · intro d hd
      rw [hdocs] at hd
      obtain ⟨r, hr, hor⟩ := process_origin_mem sparseProcessor rs.1 d hd
      rw [hs] at hr
      rw [List.mem_singleton.mp hr] at hor
      exact hor

set_option maxRecDepth 400000 in
/-- Witness for the amended C5: in the dense notebook, the concrete extra
file `data/Mahabharata/extra.txt` does contribute a stored Document. -/
theorem C5_corpus_input_witness :
    ∃ d ∈ (denseStoreW testDisk testRaws).1.docs,
      d.origin = "data/Mahabharata/extra.txt" :=
  (C5_corpus_input testDisk).1 testRaws (by decide)
    "data/Mahabharata/extra.txt" (by decide)

/-- **C6.** Pre-processing parameters: before any Document reaches a store it
passes through the configured `PreProcessor` — the dense notebook splits by
word with `split_length = 100`, `split_overlap = 0`,
`split_respect_sentence_boundary = True`; the sparse notebook splits by word
with `split_length = 500`, `split_overlap = 50`,
`split_respect_sentence_boundary = False`; and in both notebooks the store's
contents after the write are exactly the processor's output on the converted
raw text. -/
theorem C6_preprocessing_params (d0 : Disk) :
    denseProcessor.split_by = "word" ∧ denseProcessor.split_length = 100 ∧
    denseProcessor.split_overlap = 0 ∧
    denseProcessor.split_respect_sentence_boundary = true ∧
    sparseProcessor.split_by = "word" ∧ sparseProcessor.split_length = 500 ∧
    sparseProcessor.split_overlap = 50 ∧
    sparseProcessor.split_respect_sentence_boundary = false ∧
    (∀ raws, denseRaws d0 = Except.ok raws →
      (denseStoreW d0 raws).1.docs = denseProcessor.process raws) ∧
    (∀ sd rs, sparseStore d0 = Except.ok sd →
      readTextFiles sparseFiles d0 = Except.ok rs →
      sd.1.docs = sparseProcessor.process rs.1) := by
  refine ⟨rfl, rfl, rfl, rfl, rfl, rfl, rfl, rfl, ?_, ?_⟩
  · intro raws _
    simp [denseStoreW, FAISSDocumentStore.write_documents, denseInit,
      FAISSDocumentStore.init]
  · intro sd rs hsd hrs
    obtain ⟨rs', hrs', hstore, _⟩ := sparseStore_ok_inv d0 sd hsd
    rw [hrs] at hrs'
    injection hrs' with h'
    rw [hstore, ← h']
    simp [InMemoryDocumentStore.write_documents, sparseInit,
      InMemoryDocumentStore.init]

set_option maxRecDepth 400000 in
/-- Witness for C6: on the concrete test corpus the dense store after the
write holds exactly the processor's output. -/
theorem C6_preprocessing_params_witness :
    (denseStoreW testDisk testRaws).1.docs = denseProcessor.process testRaws :=
  (C6_preprocessing_params testDisk).2.2.2.2.2.2.2.2.1 testRaws (by decide)

/-- **C7.** No operation catches, retries or recovers: a failure in an
underlying call surfaces as the unhandled error of the whole notebook run —
if file conversion fails, if loading the persisted store fails, or if the
factory assert fails, the dense run returns exactly that error; if reading
the corpus file fails, the sparse run returns exactly that error. -/
theorem C7_error_propagation (m : Models) (d0 : Disk) (e : Err) :
    (denseRaws d0 = Except.error e → denseRun m d0 = Except.error e) ∧
    (∀ sd, denseAfterSave m d0 = Except.ok sd →
      FAISSDocumentStore.load "mahabharata_faiss" "mahabharata_faiss.json" sd.2
          = Except.error e →
      denseRun m d0 = Except.error e) ∧
    (∀ sd s, denseAfterSave m d0 = Except.ok sd →
      FAISSDocumentStore.load "mahabharata_faiss" "mahabharata_faiss.json" sd.2
          = Except.ok s →
      assertFactoryFlat s = Except.error e →
      denseRun m d0 = Except.error e) ∧
    (readTextFiles sparseFiles d0 = Except.error e →
      sparseRun m d0 = Except.error e) := by
  refine ⟨?_, ?_, ?_, ?_⟩
  · intro h
    simp [denseRun, denseLoaded, denseAfterSave, denseAfterUpdate,
      denseAfterWrite, denseDocs, h, Except.map, Except.bind]
  · intro sd hsd hload
    simp [denseRun, denseLoaded, hsd, hload, Except.bind, Except.map]
  · intro sd s hsd hload hassert
    simp [denseRun, denseLoaded, hsd, hload, hassert, Except.bind, Except.map]
  · intro h
    simp [sparseRun, sparseStore, TextIndexingPipeline.run_batch, h,
      Except.map]

/-- Witness for C7: on an empty file system the corpus directory yields no
files, and the dense run surfaces exactly that error. -/
theorem C7_error_propagation_witness :
    denseRun testModels [] = Except.error (Err.fileNotFound doc_dir) :=
  (C7_error_propagation testModels [] (Err.fileNotFound doc_dir)).1 (by decide)

/-- **C8.** Saving the store and loading it back is a round trip: whenever the
backing database file holds the store's documents (as it does in the
notebook), `FAISSDocumentStore.load` after `save("mahabharata_faiss")`
returns a store equal to the saved one — same Documents, same vector index,
same configuration — so in the dense notebook the re-run path continues with
exactly the store produced by `update_embeddings`. -/
theorem C8_save_load_round_trip (s : FAISSDocumentStore) (disk : Disk)
    (m : Models) (d0 : Disk) :
    (s.sql_url = "sqlite:///mahabharata.db" →
      disk.lookup (sqlUrlPath s.sql_url) = some (FileData.sqliteDb s.docs) →
      FAISSDocumentStore.load "mahabharata_faiss" "mahabharata_faiss.json"
        (s.save "mahabharata_faiss" disk) = Except.ok s) ∧
    (∀ raws, denseRaws d0 = Except.ok raws →
      denseLoaded m d0
        = Except.ok ((denseStoreU m d0 raws).1, denseStoreS m d0 raws)) :=
  ⟨fun hurl hdb => load_after_save s disk hurl hdb,
   fun raws h => denseLoaded_ok m d0 raws h⟩

set_option maxRecDepth 400000 in
/-- Witness for C8: a concrete store saved on a concrete disk loads back
equal to itself. -/
theorem C8_save_load_round_trip_witness :
    FAISSDocumentStore.load "mahabharata_faiss" "mahabharata_faiss.json"
      (testFAISS.save "mahabharata_faiss" testFaissDisk) = Except.ok testFAISS :=
  (C8_save_load_round_trip testFAISS testFaissDisk testModels testDisk).1
    rfl (by decide)

/-- **C9.** The factory assert on the dense re-run path: every store the
notebook itself saves has `faiss_index_factory_str = "Flat"`, so the assert
after `FAISSDocumentStore.load` passes there; and on any persisted store, if
the loaded factory string is `"Flat"` the re-run path proceeds to construct
the retriever on the loaded store, while if it differs the path stops with
`AssertionError` and no retriever is constructed. -/
theorem C9_factory_assert (m : Models) (d0 : Disk) (disk : Disk)
    (s : FAISSDocumentStore) :
    (∀ sd, denseAfterSave m d0 = Except.ok sd →
      sd.1.faiss_index_factory_str = "Flat") ∧
    (FAISSDocumentStore.load "mahabharata_faiss" "mahabharata_faiss.json" disk
        = Except.ok s →
      (s.faiss_index_factory_str = "Flat" →
        denseReRun disk = Except.ok (Retriever.embedding s denseModelName)) ∧
      (s.faiss_index_factory_str ≠ "Flat" →
        denseReRun disk = Except.error Err.assertionError)) := by
  constructor
  · intro sd hsd
    have hex : ∃ raws, denseRaws d0 = Except.ok raws := by
      unfold denseAfterSave at hsd
      obtain ⟨x, hU, _⟩ := exceptMap_eq_ok _ _ _ hsd
      unfold denseAfterUpdate at hU
      obtain ⟨y, hW, _⟩ := exceptMap_eq_ok _ _ _ hU
      unfold denseAfterWrite at hW
      obtain ⟨ds, hD, _⟩ := exceptMap_eq_ok _ _ _ hW
      unfold denseDocs at hD
      obtain ⟨raws, hR, _⟩ := exceptMap_eq_ok _ _ _ hD
      exact ⟨raws, hR⟩
    obtain ⟨raws, hraws⟩ := hex
    rw [denseAfterSave_ok m d0 raws hraws] at hsd
    injection hsd with h'
    rw [← h']
    exact denseStoreU_factory m d0 raws
  · intro hload
    constructor
    · intro hflat
      simp [denseReRun, hload, Except.bind, assertFactoryFlat, hflat,
        Except.map]
    · intro hflat
      simp [denseReRun, hload, Except.bind, assertFactoryFlat, hflat,
        Except.map]

/-- Witness for C9: loading a persisted store whose factory string is
`"HNSW"` makes the re-run path stop with `AssertionError`. -/
theorem C9_factory_assert_witness :
    denseReRun badDisk = Except.error Err.assertionError :=
  ((C9_factory_assert testModels testDisk badDisk badStore).2 (by decide)).2
    (by decide)

/-- **C10.** `update_embeddings` runs over the whole store after
`write_documents` and before `save`: in the store the save cell receives,
every Document carries the embedding computed from its content and has an
entry in the vector index, and the saved index file and database file persist
exactly that index and those (embedded) Documents — no Document is persisted
without an embedding. -/
theorem C10_embeddings_before_save (m : Models) (d0 : Disk)
    (raws : List RawDoc) (h : denseRaws d0 = Except.ok raws) :
    (∀ d ∈ (denseStoreU m d0 raws).1.docs,
      d.embedding = some (m.embed d.content) ∧
      (d.id, m.embed d.content) ∈ (denseStoreU m d0 raws).1.index) ∧
    denseAfterSave m d0
      = Except.ok ((denseStoreU m d0 raws).1, denseStoreS m d0 raws) ∧
    (denseStoreS m d0 raws).lookup "mahabharata_faiss"
      = some (FileData.faissIndex (denseStoreU m d0 raws).1.index) ∧
    (denseStoreS m d0 raws).lookup "mahabharata.db"
      = some (FileData.sqliteDb (denseStoreU m d0 raws).1.docs) := by
  refine ⟨?_, denseAfterSave_ok m d0 raws h, ?_, ?_⟩
  · intro d hd
    have hdocs : (denseStoreU m d0 raws).1.docs
        = (denseStoreW d0 raws).1.docs.map
            (fun x => { x with embedding := some (m.embed x.content) }) := by
      simp [denseStoreU, FAISSDocumentStore.update_embeddings]
    have hindex : (denseStoreU m d0 raws).1.index
        = (denseStoreU m d0 raws).1.docs.map
            (fun x => (x.id, m.embed x.content)) := rfl
    constructor
    · rw [hdocs] at hd
      obtain ⟨x, _, hx⟩ := List.mem_map.mp hd
      rw [← hx]
    · rw [hindex]
      exact List.mem_map.mpr ⟨d, hd, rfl⟩
  · have hpath : sqlUrlPath "sqlite:///mahabharata.db" = "mahabharata.db" := by
      decide
    simp [denseStoreS, FAISSDocumentStore.save, Disk.writeFile, Disk.lookup]
  · have hpath : sqlUrlPath "sqlite:///mahabharata.db" = "mahabharata.db" := by
      decide
    simp [denseStoreS, denseStoreU, denseStoreW, FAISSDocumentStore.save,
      FAISSDocumentStore.update_embeddings, FAISSDocumentStore.write_documents,
      denseInit, FAISSDocumentStore.init, Disk.writeFile, Disk.lookup, hpath]

set_option maxRecDepth 400000 in
/-- Witness for C10: on the concrete test corpus, the Document with id 0 in
the updated store carries its computed embedding and its index entry. -/
theorem C10_embeddings_before_save_witness :
    testUpdatedDoc.embedding = some (testModels.embed testUpdatedDoc.content) ∧
    (testUpdatedDoc.id, testModels.embed testUpdatedDoc.content)
      ∈ (denseStoreU testModels testDisk testRaws).1.index :=
  (C10_embeddings_before_save testModels testDisk testRaws (by decide)).1
    testUpdatedDoc (by decide)
